import Mathlib

/-!
Verification development for the `storage_backend_ftp` FTP storage adapter
(`storage_backend_ftp/components/ftp_adapter.py`).

The adapter is shallowly embedded: paths are lists of characters, the remote
FTP server is a small filesystem state machine, the duck-typed `ftplib`
client handed to the adapter is a record of state-passing operations, and
Python exceptions are an explicit error type threaded through `Except`.
-/

namespace FtpSpec

/-- A path, as the Python code manipulates it: a plain string of characters. -/
abbrev FPath := List Char

/-- The byte content of a file (Python `bytes`): a list of byte values. -/
abbrev Bytes := List Nat

/-! ### os.path helpers used by the source (POSIX semantics)

`ftp_adapter.py` uses `os.path.dirname`, `os.path.basename` and
`os.path.join`; these are transcriptions of CPython's `posixpath`
implementations for the two-argument cases the source needs. -/

/-- The prefix of `p` up to and including its last `/` (CPython
`p[:p.rfind(sep) + 1]`); empty when `p` has no slash. -/
def headToLastSlash (p : FPath) : FPath :=
  (p.reverse.dropWhile (fun c => c ≠ '/')).reverse

/-- Whether every character of `p` is a slash (CPython `head == sep*len(head)`). -/
def allSlashes (p : FPath) : Bool :=
  p.all (fun c => c = '/')

/-- Remove trailing slashes (CPython `head.rstrip(sep)`). -/
def rstripSlashes (p : FPath) : FPath :=
  (p.reverse.dropWhile (fun c => c = '/')).reverse

/-- `os.path.dirname` for POSIX paths, transcribed from CPython `posixpath.dirname`. -/
def dirname (p : FPath) : FPath :=
  let head := headToLastSlash p
  if head ≠ [] ∧ ¬ allSlashes head then rstripSlashes head else head

/-- `os.path.basename` for POSIX paths: the suffix after the last slash. -/
def basename (p : FPath) : FPath :=
  (p.reverse.takeWhile (fun c => c ≠ '/')).reverse

/-- `os.path.join` for POSIX paths, two-argument case, transcribed from
CPython `posixpath.join`. -/
def joinPath (a b : FPath) : FPath :=
  if b.head? = some '/' then b
  else if a = [] ∨ a.getLast? = some '/' then a ++ b
  else a ++ '/' :: b

/-- Modelled from the spec: the base adapter's `_fullpath` helper lives in the
external `fs_storage` dependency, not in this repository. The spec states that
every remote path is "resolved as `root + relative_path`" before use; this is
embedded as the POSIX join of the configured root directory with the relative
path. -/
def fullpath (root rel : FPath) : FPath :=
  joinPath root rel

/-! ### Python exceptions

The error taxonomy the adapter distinguishes: `ftplib.Error`, `OSError`
(= `IOError`, carrying an optional `errno`), `UserError`, and the wrapper
exceptions the adapter itself raises (`ValueError` in `add`,
`FileNotFoundError` in `get`, both chained `from` their cause). -/

inductive PyErr where
  | ftplibError (msg : String)
  | ioError (errno : Option Nat) (msg : String)
  | userError (msg : String)
  | runtimeError (msg : String)
  | valueError (msg : String) (cause : PyErr)
  | fileNotFoundError (msg : String) (cause : PyErr)
deriving DecidableEq, Repr

/-- `errno.ENOENT`. -/
def ENOENT : Nat := 2

/-- Whether `e` would be caught by `except ftplib.Error`. -/
def isFtplibError : PyErr → Bool
  | .ftplibError _ => true
  | _ => false

/-- Whether `e` would be caught by `except OSError` / `except IOError`.
In Python `FileNotFoundError` is a subclass of `OSError`. -/
def isOSError : PyErr → Bool
  | .ioError _ _ => true
  | .fileNotFoundError _ _ => true
  | _ => false

/-- The `errno` attribute of a caught `OSError`; `none` elsewhere (a
`FileNotFoundError` built from a single string argument has `errno is None`). -/
def errnoOf : PyErr → Option Nat
  | .ioError n _ => n
  | _ => none

/-- The test `isinstance(e, IOError) and e.errno == errno.ENOENT` that both
`ftp_mkdirs`, `add` and `list` use to recognise a missing remote path. -/
def isEnoent (e : PyErr) : Bool :=
  isOSError e && errnoOf e == some ENOENT

/-- A stand-in for Python `repr(e)`, used where the adapter embeds the cause's
text into a wrapper exception message. -/
def pyRepr : PyErr → String
  | .ftplibError m => "ftplib.Error(" ++ m ++ ")"
  | .ioError _ m => "OSError(" ++ m ++ ")"
  | .userError m => "UserError(" ++ m ++ ")"
  | .runtimeError m => "RuntimeError(" ++ m ++ ")"
  | .valueError m _ => "ValueError(" ++ m ++ ")"
  | .fileNotFoundError m _ => "FileNotFoundError(" ++ m ++ ")"

/-! ### Path segmentation for the server model

The remote filesystem model keys files and directories by the list of
non-empty `/`-separated segments of a path, so that `a/b`, `/a/b` and `a//b`
address the same remote object, as on a POSIX-style FTP server. -/

/-- A normalised remote path: its non-empty segments. -/
abbrev Key := List FPath

/-- Accumulator worker for `segs`: `cur` holds the reversed current segment. -/
def segsGo : FPath → FPath → List FPath
  | [], cur => if cur = [] then [] else [cur.reverse]
  | c :: rest, cur =>
    if c = '/' then
      (if cur = [] then segsGo rest [] else cur.reverse :: segsGo rest [])
    else segsGo rest (c :: cur)

/-- The non-empty `/`-separated segments of a path. -/
def segs (p : FPath) : Key :=
  segsGo p []

/-! ### Security resolver (`FTP_SECURITY_TO_PROTOCOL`) and session factory (`ftp`) -/

/-- The `ssl.PROTOCOL_*` constants appearing as values of
`FTP_SECURITY_TO_PROTOCOL`. -/
inductive SSLProtocol where
  | PROTOCOL_TLS
  | PROTOCOL_TLSv1
  | PROTOCOL_TLSv1_1
  | PROTOCOL_TLSv1_2
  | PROTOCOL_SSLv23
deriving DecidableEq, Repr

/-- A value of the security mapping: either a concrete protocol constant or a
disabled-protocol sentinel, which in the source is a plain `str` holding the
deprecation reason. -/
inductive ProtoEntry where
  | proto (p : SSLProtocol)
  | deprecated (msg : String)
deriving DecidableEq, Repr

/-- The module-level `FTP_SECURITY_TO_PROTOCOL` dict, as its `.get` lookup. -/
def FTP_SECURITY_TO_PROTOCOL (key : String) : Option ProtoEntry :=
  if key = "tls" then some (.proto .PROTOCOL_TLS)
  else if key = "tlsv1" then some (.proto .PROTOCOL_TLSv1)
  else if key = "tlsv1_1" then some (.proto .PROTOCOL_TLSv1_1)
  else if key = "tlsv1_2" then some (.proto .PROTOCOL_TLSv1_2)
  else if key = "sslv2" then some (.deprecated "sslv2 has been deprecated due to security issues")
  else if key = "sslv23" then some (.proto .PROTOCOL_SSLv23)
  else if key = "sslv3" then some (.deprecated "sslv3 has been deprecated due to security issues")
  else none

/-- The backend configuration fields the `ftp` context manager reads. -/
structure Backend where
  ftp_server : String
  ftp_port : Nat
  ftp_login : String
  ftp_password : String
  ftp_encryption : String
  ftp_security : String
  ftp_passive : Bool
deriving DecidableEq, Repr

/-- Which `ftplib` class the factory instantiates. -/
inductive ClientKind where
  | plainFTP
  | implicitFTPTLS
  | explicitFTPTLS
deriving DecidableEq, Repr

/-- A network interaction performed by the `ftp` context manager, in order. -/
inductive NetEvent where
  | connect (host : String) (port : Nat)
  | login (user passwd : String)
  | prot_p
  | set_pasv (flag : Bool)
deriving DecidableEq, Repr

/-- The session as configured by the factory when it reaches `yield`. -/
structure SessionResult where
  kind : ClientKind
  ssl_version : Option SSLProtocol
deriving DecidableEq, Repr

/-- The `ftp(backend)` context manager up to its `yield`: the returned event
list records every network call made, in order, so that "fails before any
network I/O" is expressible as an empty event list. An encryption mode outside
the three supported ones makes the generator end without yielding, which
Python reports as a `RuntimeError`. -/
def ftpOpen (backend : Backend) : List NetEvent × Except PyErr SessionResult :=
  if backend.ftp_encryption = "ftp" ∨ backend.ftp_encryption = "tls"
      ∨ backend.ftp_encryption = "tls_explicit" then
    let setup : Except PyErr (ClientKind × Option SSLProtocol × Bool) :=
      if backend.ftp_encryption = "ftp" then .ok (.plainFTP, none, false)
      else if backend.ftp_encryption = "tls" then
        match FTP_SECURITY_TO_PROTOCOL backend.ftp_security with
        | some (.deprecated msg) => .error (.userError msg)
        | some (.proto p) => .ok (.implicitFTPTLS, some p, true)
        | none => .ok (.implicitFTPTLS, none, true)
      else .ok (.explicitFTPTLS, none, true)
    match setup with
    | .error e => ([], .error e)
    | .ok (kind, security, protP) =>
      let evs := [NetEvent.connect backend.ftp_server backend.ftp_port,
                  NetEvent.login backend.ftp_login backend.ftp_password]
      let evs := evs ++ (if protP then [NetEvent.prot_p] else [])
      let evs := evs ++ (if backend.ftp_passive then [NetEvent.set_pasv true] else [])
      (evs, .ok { kind := kind, ssl_version := security })
  else ([], .error (.runtimeError "generator did not yield"))

/-! ### ImplicitFTPTLS socket property -/

/-- A transport socket: either a plain socket or an `ssl.SSLSocket` produced
by `context.wrap_socket` (the wrapping context is recorded). -/
inductive PySocket where
  | plainSock (id : Nat)
  | sslSocket (ctx : Nat) (inner : PySocket)
deriving DecidableEq, Repr

/-- `isinstance(value, ssl.SSLSocket)`. -/
def isSSLSocket : PySocket → Bool
  | .sslSocket _ _ => true
  | _ => false

/-- `self.context.wrap_socket(value)` for the session's TLS context `ctx`. -/
def wrap_socket (ctx : Nat) (s : PySocket) : PySocket :=
  .sslSocket ctx s

/-- The `ImplicitFTPTLS.sock` property setter: the value stored into
`self._sock` when `self.sock = value` is executed on a session whose TLS
context is `ctx`. -/
def sock_setter (ctx : Nat) (value : Option PySocket) : Option PySocket :=
  match value with
  | none => none
  | some v => if isSSLSocket v then some v else some (wrap_socket ctx v)

/-! ### Python statement sequencing

Adapter methods are sequences of Python statements over a server state; an
uncaught exception aborts the rest of the sequence. Two combinators express
this: `pyStep` sequences, `pyCatch` is a `try`/`except` handler around one
statement. -/

/-- Run the continuation on the first statement's result; an exception in
the first statement propagates and skips the continuation, keeping the state
at the moment of the raise. -/
def pyStep {σ α β : Type} (m : σ × Except PyErr α) (f : α → σ → σ × Except PyErr β) :
    σ × Except PyErr β :=
  match m with
  | (s, .ok a) => f a s
  | (s, .error e) => (s, .error e)

/-- A `try`/`except` block around one statement: the handler receives the
raised exception and the state at raise time; a normal result passes through. -/
def pyCatch {σ α : Type} (m : σ × Except PyErr α) (h : PyErr → σ → σ × Except PyErr α) :
    σ × Except PyErr α :=
  match m with
  | (s, .ok a) => (s, .ok a)
  | (s, .error e) => h e s

/-! ### The duck-typed ftplib client

The adapter methods receive an opaque `client` object and call a fixed set of
methods on it. The embedding abstracts the client as a record of
state-passing operations over a server-state type; each operation returns
the (possibly updated) server state together with either a result or the
Python exception it raised. A primitive that raises leaves its state as
returned, so the state at the moment an exception propagates is available. -/
structure Client (σ : Type) where
  mkd : FPath → σ → σ × Except PyErr Unit
  cwd : FPath → σ → σ × Except PyErr Unit
  storbinary : FPath → Bytes → σ → σ × Except PyErr Unit
  retrbinary : FPath → σ → σ × Except PyErr Bytes
  nlst : FPath → σ → σ × Except PyErr (List FPath)
  delete : FPath → σ → σ × Except PyErr Unit
  rename : FPath → FPath → σ → σ × Except PyErr Unit

/-! ### ftp_mkdirs -/

/-- The module-level `ftp_mkdirs(client, path)` helper. The Python function
is recursive with no structural measure (the recursion variable is the result
of `os.path.dirname`), so the embedding carries an explicit fuel counter;
`none` means the fuel ran out before the call chain returned. One evaluation
step: try `client.mkd(path)`; on an `IOError` whose `errno` is `ENOENT`, when
`path` is non-empty, recurse on the parent and then retry `client.mkd(path)`;
any other failure is re-raised. -/
def ftp_mkdirs (C : Client σ) : Nat → FPath → σ → Option (σ × Except PyErr Unit)
  | 0, _, _ => none
  | fuel + 1, p, s =>
    match C.mkd p s with
    | (s1, .ok _) => some (s1, .ok ())
    | (s1, .error e) =>
      if isEnoent e ∧ p ≠ [] then
        match ftp_mkdirs C fuel (dirname p) s1 with
        | none => none
        | some (s2, .ok _) => some (C.mkd p s2)
        | some (s2, .error e2) => some (s2, .error e2)
      else some (s1, .error e)

/-! ### FTPStorageBackendAdapter operations

Each operation is embedded as a function of the client, the configured root
path (`self.collection`'s root, used by `_fullpath`), its own arguments and
the server state. Session opening and teardown are handled by the `ftp`
context manager, modelled separately by `ftpOpen`. -/

namespace FTPStorageBackendAdapter

/-- The directory-preparation phase of `add`: `if dirname: try cwd except
IOError e: if e.errno == ENOENT: ftp_mkdirs(client, dirname) else raise`.
Note the source does not retry the `cwd` after creating the directories. -/
def addDirStep (C : Client σ) (fuel : Nat) (d : FPath) (s : σ) :
    Option (σ × Except PyErr Unit) :=
  if d = [] then some (s, .ok ())
  else
    match C.cwd d s with
    | (s1, .ok _) => some (s1, .ok ())
    | (s1, .error e) =>
      if isEnoent e then ftp_mkdirs C fuel d s1
      else some (s1, .error e)

/-- The upload phase of `add`: `client.storbinary("STOR " + full_path, ...)`,
with both `except ftplib.Error` and `except OSError` re-raised as
`ValueError(repr(e)) from e`. -/
def addStorStep (C : Client σ) (cmd : FPath) (data : Bytes) (s : σ) :
    σ × Except PyErr Unit :=
  pyCatch (C.storbinary cmd data s) (fun e s1 =>
    if isFtplibError e ∨ isOSError e then (s1, .error (.valueError (pyRepr e) e))
    else (s1, .error e))

/-- `FTPStorageBackendAdapter.add(relative_path, data)`. -/
def add (C : Client σ) (fuel : Nat) (root rel : FPath) (data : Bytes) (s : σ) :
    Option (σ × Except PyErr Unit) :=
  match addDirStep C fuel (dirname (fullpath root rel)) s with
  | none => none
  | some (s1, .error e) => some (s1, .error e)
  | some (s1, .ok _) => some (addStorStep C ("STOR ".data ++ fullpath root rel) data s1)

/-- `FTPStorageBackendAdapter.get(relative_path)`: download into a buffer;
`except ftplib.Error` is re-raised as `FileNotFoundError(repr(e)) from e`,
every other exception propagates unchanged. -/
def get (C : Client σ) (root rel : FPath) (s : σ) : σ × Except PyErr Bytes :=
  pyCatch (C.retrbinary ("RETR ".data ++ fullpath root rel) s) (fun e s1 =>
    if isFtplibError e then (s1, .error (.fileNotFoundError (pyRepr e) e))
    else (s1, .error e))

/-- `FTPStorageBackendAdapter.list(relative_path)`: `client.nlst(full_path)`;
an `IOError` with `errno == ENOENT` yields `[]`, anything else re-raises. -/
def list (C : Client σ) (root rel : FPath) (s : σ) : σ × Except PyErr (List FPath) :=
  pyCatch (C.nlst (fullpath root rel) s) (fun e s1 =>
    if isEnoent e then (s1, .ok [])
    else (s1, .error e))

/-- `FTPStorageBackendAdapter.move_files(files, destination_path)`: for each
file in order, compute `dest_file_path = join(destination_path, basename f)`,
probe it with `client.nlst(dest_file_path)` (an `ftplib.Error` from the probe
leaves `result = []`), delete `dest_file_path` when the probe result is
non-empty, then `client.rename(fp(f), fp(dest_file_path))` with the
`_fullpath`-resolved source and destination. -/
def move_files (C : Client σ) (root : FPath) (files : List FPath)
    (destination_path : FPath) (s : σ) : σ × Except PyErr Unit :=
  match files with
  | [] => (s, .ok ())
  | f :: rest =>
    let dest_file_path := joinPath destination_path (basename f)
    pyStep (pyCatch (C.nlst dest_file_path s)
        (fun e s1 => if isFtplibError e then (s1, .ok []) else (s1, .error e)))
      (fun result s1 =>
        pyStep (if result ≠ [] then C.delete dest_file_path s1 else (s1, .ok ()))
          (fun _ s2 =>
            pyStep (C.rename (fullpath root f) (fullpath root dest_file_path) s2)
              (fun _ s3 => move_files C root rest destination_path s3)))

/-- `FTPStorageBackendAdapter.delete(relative_path)`. -/
def delete (C : Client σ) (root rel : FPath) (s : σ) : σ × Except PyErr Unit :=
  C.delete (fullpath root rel) s

end FTPStorageBackendAdapter

/-! ### A concrete FTP-server model

A small filesystem standing for the remote server: a set of directories and
a map from file keys to byte contents, both keyed by normalised segment
lists. The server root always exists. Failures whose cause is a missing
remote path are raised with a configurable exception `merr`, because the
concrete exception class for "no such file or directory" is produced by the
external `ftplib`/server pair, not by this repository; the adapter code in
`src` branches on that class, and each claim is settled at the class its
scenario concerns. -/

/-- Association lookup of a file's bytes by key. -/
def findFile : List (Key × Bytes) → Key → Option Bytes
  | [], _ => none
  | kv :: rest, k => if kv.1 = k then some kv.2 else findFile rest k

/-- Remove every binding of key `k`. -/
def removeFile : List (Key × Bytes) → Key → List (Key × Bytes)
  | [], _ => []
  | kv :: rest, k => if kv.1 = k then removeFile rest k else kv :: removeFile rest k

/-- Membership of a key in a directory list. -/
def memKey : List Key → Key → Bool
  | [], _ => false
  | d :: rest, k => if d = k then true else memKey rest k

/-- The remote filesystem: existing directories (the root `[]` always
implicitly exists) and files with their contents. -/
structure FS where
  dirs : List Key
  files : List (Key × Bytes)
deriving DecidableEq, Repr

/-- Whether directory `k` exists (the root always does). -/
def dirExists (fs : FS) (k : Key) : Bool :=
  k.isEmpty || memKey fs.dirs k

/-- The `550`-style reply the server gives when creating a directory that
already exists; an `ftplib.Error`, so never `ENOENT`. -/
def existsErr : PyErr := .ftplibError "550 Directory already exists."

/-- The `IOError` with `errno == ENOENT` that the adapter's handlers test for. -/
def enoentErr : PyErr := .ioError (some ENOENT) "No such file or directory"

/-- The `ftplib.error_perm` a server reply maps "no such file" onto. -/
def notFound550 : PyErr := .ftplibError "550 No such file or directory."

/-- `MKD`: fails on the root or an existing directory with a `550`-style
error; fails with `merr` when the parent directory is missing; otherwise
records the new directory. -/
def fsMkd (merr : PyErr) (p : FPath) (fs : FS) : FS × Except PyErr Unit :=
  let k := segs p
  if k.isEmpty then (fs, .error existsErr)
  else if memKey fs.dirs k then (fs, .error existsErr)
  else if dirExists fs k.dropLast then ({ fs with dirs := k :: fs.dirs }, .ok ())
  else (fs, .error merr)

/-- `CWD`: succeeds exactly on an existing directory, else raises `merr`. -/
def fsCwd (merr : PyErr) (p : FPath) (fs : FS) : FS × Except PyErr Unit :=
  if dirExists fs (segs p) then (fs, .ok ()) else (fs, .error merr)

/-- `storbinary("STOR " + path, data)`: the five-character command prefix is
stripped to recover the path; the store succeeds (overwriting any previous
content) when the parent directory exists, else raises `merr`. -/
def fsStor (merr : PyErr) (cmd : FPath) (data : Bytes) (fs : FS) :
    FS × Except PyErr Unit :=
  let k := segs (cmd.drop 5)
  if dirExists fs k.dropLast then
    ({ fs with files := (k, data) :: removeFile fs.files k }, .ok ())
  else (fs, .error merr)

/-- `retrbinary("RETR " + path, callback)`: returns the stored bytes, or the
server's `550` transfer error (an `ftplib.Error`) when the file is missing. -/
def fsRetr (cmd : FPath) (fs : FS) : FS × Except PyErr Bytes :=
  match findFile fs.files (segs (cmd.drop 5)) with
  | some d => (fs, .ok d)
  | none => (fs, .error (.ftplibError "550 Failed to open file."))

/-- Render a key back into a path string. -/
def joinSegs : Key → FPath
  | [] => []
  | [seg] => seg
  | seg :: rest => seg ++ '/' :: joinSegs rest

/-- `NLST path`: a file path lists itself; a directory lists the files
directly inside it; a missing path raises `merr`. -/
def fsNlst (merr : PyErr) (p : FPath) (fs : FS) : FS × Except PyErr (List FPath) :=
  let k := segs p
  if (findFile fs.files k).isSome then (fs, .ok [p])
  else if dirExists fs k then
    (fs, .ok ((fs.files.filterMap (fun kv =>
      if kv.1.dropLast = k then some (joinSegs kv.1) else none))))
  else (fs, .error merr)

/-- `DELE`: removes an existing file, else a `550` error. -/
def fsDelete (p : FPath) (fs : FS) : FS × Except PyErr Unit :=
  let k := segs p
  if (findFile fs.files k).isSome then
    ({ fs with files := removeFile fs.files k }, .ok ())
  else (fs, .error (.ftplibError "550 Delete operation failed."))

/-- `RNFR`/`RNTO`: moves an existing file to a free destination whose parent
directory exists; renaming onto an existing file fails (which is why
`move_files` deletes the destination first). -/
def fsRename (merr : PyErr) (src dst : FPath) (fs : FS) : FS × Except PyErr Unit :=
  let ks := segs src
  let kd := segs dst
  match findFile fs.files ks with
  | none => (fs, .error (.ftplibError "550 RNFR command failed."))
  | some d =>
    if (findFile fs.files kd).isSome then
      (fs, .error (.ftplibError "550 Rename failed: destination exists."))
    else if dirExists fs kd.dropLast then
      ({ fs with files := (kd, d) :: removeFile fs.files ks }, .ok ())
    else (fs, .error merr)

/-- The concrete server model bundled as a client, parametrised by the
exception class `merr` raised for missing remote paths. -/
def fsClient (merr : PyErr) : Client FS where
  mkd := fsMkd merr
  cwd := fsCwd merr
  storbinary := fsStor merr
  retrbinary := fun cmd fs => fsRetr cmd fs
  nlst := fsNlst merr
  delete := fun p fs => fsDelete p fs
  rename := fsRename merr

/-! ### Instrumentation clients -/

/-- A trace of protocol calls: the method name together with the path
argument the adapter handed to it. -/
abbrev CallLog := List (String × FPath)

/-- A client that records every call (most recent first) and always
succeeds; its `nlst` reports the probed path as present, so a conflict
delete is always performed. Used to observe exactly which path arguments
reach the protocol layer. -/
def logClient : Client CallLog where
  mkd := fun p s => (("mkd", p) :: s, .ok ())
  cwd := fun p s => (("cwd", p) :: s, .ok ())
  storbinary := fun cmd _ s => (("storbinary", cmd) :: s, .ok ())
  retrbinary := fun cmd s => (("retrbinary", cmd) :: s, .ok [])
  nlst := fun p s => (("nlst", p) :: s, .ok [p])
  delete := fun p s => (("delete", p) :: s, .ok ())
  rename := fun src dst s => (("rename_to", dst) :: ("rename_from", src) :: s, .ok ())

/-- A client identical to `C` except that `delete` always raises `e`. -/
def failDelClient (C : Client σ) (e : PyErr) : Client σ :=
  { C with delete := fun _ s => (s, .error e) }

/-- A client all of whose operations raise `e` without touching the state. -/
def errClient (e : PyErr) : Client Unit where
  mkd := fun _ s => (s, .error e)
  cwd := fun _ s => (s, .error e)
  storbinary := fun _ _ s => (s, .error e)
  retrbinary := fun _ s => (s, .error e)
  nlst := fun _ s => (s, .error e)
  delete := fun _ s => (s, .error e)
  rename := fun _ _ s => (s, .error e)

/-! ### Helper lemmas -/

theorem dropWhile_length_le {α : Type} (q : α → Bool) (l : List α) :
    (l.dropWhile q).length ≤ l.length := by
  induction l with
  | nil => simp [List.dropWhile]
  | cons a t ih =>
    rw [List.dropWhile_cons]
    by_cases h : q a = true
    · rw [if_pos h]
      exact Nat.le_trans ih (Nat.le_succ _)
    · rw [if_neg h]

theorem dropWhile_self_or_lt {α : Type} (q : α → Bool) (l : List α) :
    l.dropWhile q = l ∨ (l.dropWhile q).length < l.length := by
  cases l with
  | nil => exact Or.inl rfl
  | cons a t =>
    rw [List.dropWhile_cons]
    by_cases h : q a = true
    · rw [if_pos h]
      exact Or.inr (Nat.lt_succ_of_le (dropWhile_length_le q t))
    · rw [if_neg h]
      exact Or.inl rfl

theorem dropWhile_head_false {α : Type} (q : α → Bool) (l : List α) (c : α) (t : List α)
    (h : l.dropWhile q = c :: t) : q c = false := by
  induction l with
  | nil => simp [List.dropWhile] at h
  | cons a s ih =>
    rw [List.dropWhile_cons] at h
    by_cases ha : q a = true
    · rw [if_pos ha] at h
      exact ih h
    · rw [if_neg ha] at h
      injection h with h1 _
      subst h1
      exact Bool.not_eq_true _ ▸ Bool.of_not_eq_true ha

/-- The key termination fact behind `ftp_mkdirs`: as long as a path still
contains a non-slash character, its `os.path.dirname` is strictly shorter. -/
theorem dirname_length_lt (p : FPath) (hp : p.any (fun c => c ≠ '/') = true) :
    (dirname p).length < p.length := by
  have hpne : p ≠ [] := by
    intro h
    subst h
    simp at hp
  have hplen : 0 < p.length := List.length_pos.mpr hpne
  rcases hd : p.reverse.dropWhile (fun c => decide ¬(c = '/')) with _ | ⟨c, t⟩
  · have hdir : dirname p = [] := by
      unfold dirname headToLastSlash
      rw [hd]
      simp
    rw [hdir]
    simpa using hplen
  · have hc : c = '/' := by
      simpa using dropWhile_head_false _ _ _ _ hd
    have hlen_le : t.length + 1 ≤ p.length := by
      have h1 := dropWhile_length_le (fun c => decide ¬(c = '/')) p.reverse
      rw [hd] at h1
      simpa using h1
    by_cases hall : allSlashes ((c :: t).reverse) = true
    · have hdir : dirname p = (c :: t).reverse := by
        unfold dirname headToLastSlash
        rw [hd]
        rw [if_neg (fun hcond => hcond.2 hall)]
      rw [hdir]
      rcases dropWhile_self_or_lt (fun c => decide ¬(c = '/')) p.reverse with heq | hlt
      · exfalso
        rw [hd] at heq
        have hrev : (c :: t).reverse = p := by
          rw [heq]
          exact List.reverse_reverse p
        rw [hrev] at hall
        rcases List.any_eq_true.mp hp with ⟨x, hx, hxne⟩
        have hx2 := (List.all_eq_true.mp hall) x hx
        simp at hx2 hxne
        exact hxne hx2
      · rw [hd] at hlt
        rw [List.length_reverse]
        calc (c :: t).length < p.reverse.length := hlt
          _ = p.length := List.length_reverse _
    · have hdir : dirname p = ((c :: t).dropWhile (fun c => decide (c = '/'))).reverse := by
        unfold dirname headToLastSlash rstripSlashes
        rw [hd]
        rw [if_pos ⟨by simp, hall⟩]
        rw [List.reverse_reverse]
      rw [hdir]
      have hstep : ((c :: t).dropWhile (fun c => decide (c = '/'))).length ≤ t.length := by
        rw [List.dropWhile_cons, if_pos (by simp [hc])]
        exact dropWhile_length_le _ t
      rw [List.length_reverse]
      omega

/-- A path with at least one segment contains a non-slash character. -/
theorem segsGo_ne_nil (l : FPath) :
    ∀ cur, segsGo l cur ≠ [] → l.any (fun c => c ≠ '/') = true ∨ cur ≠ [] := by
  induction l with
  | nil =>
    intro cur h
    unfold segsGo at h
    by_cases hc : cur = []
    · rw [if_pos hc] at h
      exact absurd rfl h
    · exact Or.inr hc
  | cons c rest ih =>
    intro cur h
    unfold segsGo at h
    by_cases hc : c = '/'
    · rw [if_pos hc] at h
      by_cases hcur : cur = []
      · rw [if_pos hcur] at h
        rcases ih [] h with h1 | h1
        · exact Or.inl (by rw [List.any_cons, h1, Bool.or_true])
        · exact absurd rfl h1
      · exact Or.inr hcur
    · exact Or.inl (by rw [List.any_cons]; simp [hc])

theorem segs_ne_nil (p : FPath) (h : segs p ≠ []) : p.any (fun c => c ≠ '/') = true := by
  rcases segsGo_ne_nil p [] h with h1 | h1
  · exact h1
  · exact absurd rfl h1

/-- In the server model, `MKD` raises an `ENOENT`-classed error only for a
path that actually has a segment: the root and all-slash spellings of it
report "already exists" (an `ftplib` error) instead. -/
theorem fsMkd_error_enoent (merr : PyErr) (p : FPath) (fs s1 : FS) (e : PyErr)
    (h : fsMkd merr p fs = (s1, .error e)) (he : isEnoent e = true) : segs p ≠ [] := by
  simp only [fsMkd] at h
  split at h
  · obtain ⟨-, h2⟩ := Prod.ext_iff.mp h
    have h3 := Except.error.inj h2
    subst h3
    exact absurd he (by decide)
  · split at h
    · obtain ⟨-, h2⟩ := Prod.ext_iff.mp h
      have h3 := Except.error.inj h2
      subst h3
      exact absurd he (by decide)
    · split at h
      · obtain ⟨-, h2⟩ := Prod.ext_iff.mp h
        simp at h2
      · next hk _ _ =>
        intro hnil
        rw [hnil] at hk
        simp at hk

theorem pyStep_ok {σ α β : Type} (s : σ) (a : α) (f : α → σ → σ × Except PyErr β) :
    pyStep (s, .ok a) f = f a s := rfl

theorem pyStep_error {σ α β : Type} (s : σ) (e : PyErr) (f : α → σ → σ × Except PyErr β) :
    pyStep (s, .error e) f = (s, .error e) := rfl

theorem pyCatch_ok {σ α : Type} (s : σ) (a : α) (h : PyErr → σ → σ × Except PyErr α) :
    pyCatch (s, .ok a) h = (s, .ok a) := rfl

theorem pyCatch_error {σ α : Type} (s : σ) (e : PyErr) (h : PyErr → σ → σ × Except PyErr α) :
    pyCatch (s, .error e) h = h e s := rfl

theorem pyStep_assoc {σ α β γ : Type} (m : σ × Except PyErr α)
    (k : α → σ → σ × Except PyErr β) (k2 : β → σ → σ × Except PyErr γ) :
    pyStep (pyStep m k) k2 = pyStep m (fun a s => pyStep (k a s) k2) := by
  rcases m with ⟨s, r⟩
  cases r with
  | ok a => rfl
  | error e => rfl

/-- With the server model, `ftp_mkdirs` returns within `length(path) + 1`
evaluation steps: each recursive step happens only for a path with a real
segment, whose `dirname` is strictly shorter. -/
theorem ftp_mkdirs_fuel (merr : PyErr) :
    ∀ (fuel : Nat) (p : FPath) (fs : FS), p.length < fuel →
      (ftp_mkdirs (fsClient merr) fuel p fs).isSome = true := by
  intro fuel
  induction fuel with
  | zero =>
    intro p fs h
    exact absurd h (Nat.not_lt_zero _)
  | succ fuel ih =>
    intro p fs h
    rw [ftp_mkdirs]
    rcases hm : (fsClient merr).mkd p fs with ⟨s1, r⟩
    cases r with
    | ok _ => rfl
    | error e =>
      split
      · next heq => simp at heq
      · next s1b eb heq =>
        injection heq with h1 h2
        injection h2 with h3
        subst h1
        subst h3
        by_cases hcond : isEnoent e = true ∧ p ≠ []
        · rw [if_pos hcond]
          have hseg : segs p ≠ [] := fsMkd_error_enoent merr p fs s1 e hm hcond.1
          have hlt : (dirname p).length < p.length := dirname_length_lt p (segs_ne_nil p hseg)
          have hrec := ih (dirname p) s1 (by omega)
          rcases hr : ftp_mkdirs (fsClient merr) fuel (dirname p) s1 with _ | ⟨s2, r2⟩
          · rw [hr] at hrec
            simp at hrec
          · cases r2 with
            | ok _ => rfl
            | error e2 => rfl
        · rw [if_neg hcond]
          rfl

/-- `move_files` on a non-empty batch is the single-file move of the head
sequenced (with exception short-circuiting) with the move of the tail from
the resulting state. -/
theorem move_files_cons (σ : Type) (C : Client σ) (root f : FPath) (rest : List FPath)
    (destination : FPath) (s : σ) :
    FTPStorageBackendAdapter.move_files C root (f :: rest) destination s =
      pyStep (FTPStorageBackendAdapter.move_files C root [f] destination s)
        (fun _ s1 => FTPStorageBackendAdapter.move_files C root rest destination s1) := by
  simp only [FTPStorageBackendAdapter.move_files, pyStep_assoc, pyStep_ok]

/-- A successful `storbinary` phase of `add` against the server model stores
the data under the path spelled in the `STOR` command. -/
theorem addStorStep_ok (merr : PyErr) (cmd : FPath) (data : Bytes) (s fs' : FS)
    (h : FTPStorageBackendAdapter.addStorStep (fsClient merr) cmd data s = (fs', .ok ())) :
    fs' = { s with files := (segs (cmd.drop 5), data)
                     :: removeFile s.files (segs (cmd.drop 5)) } := by
  unfold FTPStorageBackendAdapter.addStorStep at h
  have hsb : (fsClient merr).storbinary = fsStor merr := rfl
  rw [hsb] at h
  by_cases hd : dirExists s (segs (cmd.drop 5)).dropLast = true
  · rw [show fsStor merr cmd data s
        = ({ s with files := (segs (cmd.drop 5), data)
                      :: removeFile s.files (segs (cmd.drop 5)) }, .ok ()) from by
      simp only [fsStor]
      rw [if_pos hd]] at h
    rw [pyCatch_ok] at h
    exact ((Prod.ext_iff.mp h).1).symm
  · rw [show fsStor merr cmd data s = (s, .error merr) from by
      simp only [fsStor]
      rw [if_neg hd]] at h
    rw [pyCatch_error] at h
    split at h
    · exact absurd (Prod.ext_iff.mp h).2 (by simp)
    · exact absurd (Prod.ext_iff.mp h).2 (by simp)

/-! ### Claims -/

/-- C1: for an implicit-TLS (`"tls"`) configuration whose security preference
maps to a disabled-protocol sentinel (the `sslv2`/`sslv3` entries), opening a
session fails with a `UserError` (the spec's `ConfigurationError`) carrying
the sentinel's human-readable deprecation reason, and the factory performs no
network interaction at all: its event trace is empty, so no connect happens
and no socket is opened. -/
theorem claim_C1 (b : Backend) (m : String)
    (henc : b.ftp_encryption = "tls")
    (hmap : FTP_SECURITY_TO_PROTOCOL b.ftp_security = some (.deprecated m)) :
    ftpOpen b = ([], .error (.userError m)) := by
  unfold ftpOpen
  rw [henc, hmap]
  simp

/-- Witness for C1: both disabled preferences, `sslv2` and `sslv3`. -/
theorem claim_C1_witness :
    ftpOpen ⟨"h", 21, "u", "p", "tls", "sslv2", true⟩ =
        ([], .error (.userError "sslv2 has been deprecated due to security issues"))
    ∧ ftpOpen ⟨"h", 21, "u", "p", "tls", "sslv3", false⟩ =
        ([], .error (.userError "sslv3 has been deprecated due to security issues")) :=
  ⟨claim_C1 _ _ rfl (by decide), claim_C1 _ _ rfl (by decide)⟩

/-- C2: the `ImplicitFTPTLS.sock` setter keeps the invariant that the stored
socket is absent or TLS-wrapped: a non-`None` value that is not already an
`ssl.SSLSocket` is wrapped with the session's TLS context before being
stored, and an already-wrapped value or `None` is stored unchanged. -/
theorem claim_C2 (ctx : Nat) (v : Option PySocket) :
    (sock_setter ctx v = none ∨ ∃ s, sock_setter ctx v = some s ∧ isSSLSocket s = true)
    ∧ (∀ s, v = some s → isSSLSocket s = false →
        sock_setter ctx v = some (wrap_socket ctx s))
    ∧ (∀ s, v = some s → isSSLSocket s = true → sock_setter ctx v = some s)
    ∧ (v = none → sock_setter ctx v = none) := by
  refine ⟨?_, ?_, ?_, ?_⟩
  · cases v with
    | none => exact Or.inl rfl
    | some s =>
      by_cases hs : isSSLSocket s = true
      · exact Or.inr ⟨s, by simp [sock_setter, hs], hs⟩
      · exact Or.inr ⟨wrap_socket ctx s, by simp [sock_setter, hs], rfl⟩
  · intro s hv hs
    subst hv
    simp [sock_setter, hs]
  · intro s hv hs
    subst hv
    simp [sock_setter, hs]
  · intro hv
    subst hv
    rfl

/-- Witness for C2: a plain socket gets wrapped with the session's context. -/
theorem claim_C2_witness :
    sock_setter 0 (some (.plainSock 1)) = some (wrap_socket 0 (.plainSock 1)) :=
  (claim_C2 0 (some (.plainSock 1))).2.1 (.plainSock 1) rfl rfl

/-- C3: on the server model, whenever `add(rel, data)` succeeds, a following
`get(rel)` on the resulting backend state returns exactly `data`, byte for
byte, for every root, every relative path and every byte string (including
the empty one and ones containing NUL bytes), and every missing-path error
class `merr` the server might use. -/
theorem claim_C3 (merr : PyErr) (fuel : Nat) (root rel : FPath) (data : Bytes)
    (fs fs' : FS)
    (h : FTPStorageBackendAdapter.add (fsClient merr) fuel root rel data fs
        = some (fs', .ok ())) :
    FTPStorageBackendAdapter.get (fsClient merr) root rel fs' = (fs', .ok data) := by
  unfold FTPStorageBackendAdapter.add at h
  rcases ha : FTPStorageBackendAdapter.addDirStep (fsClient merr) fuel
      (dirname (fullpath root rel)) fs with _ | ⟨s1, r1⟩
  · rw [ha] at h
    simp at h
  · rw [ha] at h
    cases r1 with
    | error e => simp at h
    | ok _ =>
      have h2 : FTPStorageBackendAdapter.addStorStep (fsClient merr)
          ("STOR ".data ++ fullpath root rel) data s1 = (fs', .ok ()) :=
        Option.some.inj h
      have hfs := addStorStep_ok merr _ data s1 fs' h2
      have hkey : segs (("STOR ".data ++ fullpath root rel).drop 5)
          = segs (fullpath root rel) := rfl
      rw [hkey] at hfs
      unfold FTPStorageBackendAdapter.get
      have hrb : (fsClient merr).retrbinary ("RETR ".data ++ fullpath root rel) fs'
          = fsRetr ("RETR ".data ++ fullpath root rel) fs' := rfl
      rw [hrb]
      have hretr : fsRetr ("RETR ".data ++ fullpath root rel) fs' = (fs', .ok data) := by
        simp only [fsRetr]
        rw [show segs (("RETR ".data ++ fullpath root rel).drop 5)
            = segs (fullpath root rel) from rfl]
        rw [hfs]
        simp [findFile]
      rw [hretr, pyCatch_ok]

/-- Witness for C3: storing a one-byte file containing a NUL byte at the
backend root and reading it back. -/
theorem claim_C3_witness :
    FTPStorageBackendAdapter.add (fsClient enoentErr) 1 [] ("a.txt".data) [0] ⟨[], []⟩
        = some (⟨[], [([['a', '.', 't', 'x', 't']], [0])]⟩, .ok ())
    ∧ FTPStorageBackendAdapter.get (fsClient enoentErr) [] ("a.txt".data)
        ⟨[], [([['a', '.', 't', 'x', 't']], [0])]⟩
        = (⟨[], [([['a', '.', 't', 'x', 't']], [0])]⟩, .ok [0]) :=
  ⟨rfl, claim_C3 enoentErr 1 [] ("a.txt".data) [0] ⟨[], []⟩ _ rfl⟩

/-- Running a statement and discarding its unit result is the statement. -/
theorem pyStep_unit_ok {σ : Type} (m : σ × Except PyErr Unit) :
    pyStep m (fun _ s => (s, .ok ())) = m := by
  rcases m with ⟨s, r⟩
  cases r with
  | ok a => rfl
  | error e => rfl

/-- The `OSError` and `ftplib.Error` families are disjoint. -/
theorem isOSError_not_ftplib (e : PyErr) (h : isOSError e = true) :
    isFtplibError e = false := by
  cases e <;> simp [isOSError, isFtplibError] at h ⊢

/-- C4 counterexample: `move_files(["a/x.txt"], "b")` on a backend whose root
is `/root` hands the protocol layer the unresolved destination path
`b/x.txt` — both for the conflict probe (`nlst`) and for the conflict delete
— while the claim requires every path handed to the protocol layer to be the
`root + relative_path` resolution; only the rename arguments are resolved.
The recording client shows the exact path arguments of every protocol call. -/
theorem claim_C4_counterexample :
    FTPStorageBackendAdapter.move_files logClient ("/root".data) ["a/x.txt".data]
        ("b".data) []
      = ([("rename_to", "/root/b/x.txt".data), ("rename_from", "/root/a/x.txt".data),
          ("delete", "b/x.txt".data), ("nlst", "b/x.txt".data)], .ok ())
    ∧ ("nlst", "b/x.txt".data) ∈ (FTPStorageBackendAdapter.move_files logClient
        ("/root".data) ["a/x.txt".data] ("b".data) []).1
    ∧ ("delete", "b/x.txt".data) ∈ (FTPStorageBackendAdapter.move_files logClient
        ("/root".data) ["a/x.txt".data] ("b".data) []).1
    ∧ "b/x.txt".data ≠ fullpath ("/root".data) ("b/x.txt".data) := by
  refine ⟨rfl, ?_, ?_, ?_⟩ <;> decide

/-- C4 (amended): in `add`, `get`, `list` and `delete` every path handed to
the protocol layer is the `root + relative_path` resolution (or, for `add`'s
`cwd`, its `dirname`), and the rename step of `move_files` uses resolved
source and destination; but `move_files` hands the unresolved destination
path `join(destinationDir, basename f)` to the conflict probe (`nlst`) and
to the conflict delete. The recording client traces every protocol call with
its path argument (most recent first). -/
theorem claim_C4 :
    (∀ (root rel : FPath) (s : CallLog),
        FTPStorageBackendAdapter.delete logClient root rel s
          = (("delete", fullpath root rel) :: s, .ok ()))
    ∧ (∀ (root rel : FPath) (s : CallLog),
        FTPStorageBackendAdapter.get logClient root rel s
          = (("retrbinary", "RETR ".data ++ fullpath root rel) :: s, .ok []))
    ∧ (∀ (root rel : FPath) (s : CallLog),
        FTPStorageBackendAdapter.list logClient root rel s
          = (("nlst", fullpath root rel) :: s, .ok [fullpath root rel]))
    ∧ (∀ (fuel : Nat) (root rel : FPath) (data : Bytes) (s : CallLog),
        FTPStorageBackendAdapter.add logClient fuel root rel data s
          = some (("storbinary", "STOR ".data ++ fullpath root rel) ::
              (if dirname (fullpath root rel) = [] then s
               else ("cwd", dirname (fullpath root rel)) :: s), .ok ()))
    ∧ (∀ (root destination f : FPath) (s : CallLog),
        FTPStorageBackendAdapter.move_files logClient root [f] destination s
          = (("rename_to", fullpath root (joinPath destination (basename f))) ::
             ("rename_from", fullpath root f) ::
             ("delete", joinPath destination (basename f)) ::
             ("nlst", joinPath destination (basename f)) :: s, .ok ())) := by
  refine ⟨fun root rel s => rfl, fun root rel s => rfl, fun root rel s => rfl, ?_, ?_⟩
  · intro fuel root rel data s
    by_cases hd : dirname (fullpath root rel) = []
    · simp [FTPStorageBackendAdapter.add, FTPStorageBackendAdapter.addDirStep,
        FTPStorageBackendAdapter.addStorStep, logClient, hd, pyCatch]
    · simp [FTPStorageBackendAdapter.add, FTPStorageBackendAdapter.addDirStep,
        FTPStorageBackendAdapter.addStorStep, logClient, hd, pyCatch]
  · intro root destination f s
    rfl

/-- C5: `ftp_mkdirs` terminates on every input against the server model:
`length(path) + 1` recursion steps always suffice (for every missing-path
error class the server might raise), because a recursive step only happens
for a path with at least one real segment, whose `os.path.dirname` parent is
strictly shorter, and the empty path is a base case that performs no
recursion at all (it simply re-raises the creation error). -/
theorem claim_C5 :
    (∀ (merr : PyErr) (p : FPath) (fs : FS),
        (ftp_mkdirs (fsClient merr) (p.length + 1) p fs).isSome = true)
    ∧ (∀ p : FPath, segs p ≠ [] → (dirname p).length < p.length)
    ∧ (∀ (merr : PyErr) (fuel : Nat) (fs : FS),
        ftp_mkdirs (fsClient merr) (fuel + 1) [] fs = some (fs, .error existsErr)) := by
  refine ⟨?_, ?_, ?_⟩
  · intro merr p fs
    exact ftp_mkdirs_fuel merr (p.length + 1) p fs (Nat.lt_succ_self _)
  · intro p hp
    exact dirname_length_lt p (segs_ne_nil p hp)
  · intro merr fuel fs
    rfl

/-- Witness for C5: the three-level path of the spec example terminates
within its length bound, has a strictly shorter parent, and the empty path
re-raises without recursion. -/
theorem claim_C5_witness :
    (ftp_mkdirs (fsClient enoentErr) (("a/b/c".data).length + 1) ("a/b/c".data)
        ⟨[], []⟩).isSome = true
    ∧ (dirname ("a/b".data)).length < ("a/b".data).length
    ∧ ftp_mkdirs (fsClient enoentErr) 1 [] ⟨[], []⟩ = some (⟨[], []⟩, .error existsErr) :=
  ⟨claim_C5.1 enoentErr ("a/b/c".data) ⟨[], []⟩,
   claim_C5.2.1 ("a/b".data) (by decide),
   claim_C5.2.2 enoentErr 0 ⟨[], []⟩⟩

/-- C6: creating `a/b/c` when none of `a`, `a/b`, `a/b/c` exist first fails
with the missing-parent `ENOENT` error, recursively ensures the parents and
retries, creating all three directories in parent-first order (`dirs` records
creations most recent first); and a directory-creation failure that is not an
`ENOENT` `IOError` on a non-empty path propagates unchanged — it is neither
retried nor swallowed, for any client whatsoever. -/
theorem claim_C6 :
    (ftp_mkdirs (fsClient enoentErr) 6 ("a/b/c".data) ⟨[], []⟩
      = some (⟨[[['a'], ['b'], ['c']], [['a'], ['b']], [['a']]], []⟩, .ok ()))
    ∧ (∀ (σ : Type) (C : Client σ) (fuel : Nat) (p : FPath) (s s1 : σ) (e : PyErr),
        C.mkd p s = (s1, .error e) → ¬(isEnoent e = true ∧ p ≠ []) →
        ftp_mkdirs C (fuel + 1) p s = some (s1, .error e)) := by
  constructor
  · rfl
  · intro σ C fuel p s s1 e hm hne
    rw [ftp_mkdirs, hm]
    split
    · next heq => simp at heq
    · next s1b eb heq =>
      injection heq with h1 h2
      injection h2 with h3
      subst h1
      subst h3
      rw [if_neg hne]

/-- Witness for C6: a non-ENOENT creation failure (a `550`-style
`ftplib.Error`) propagates unchanged out of `ftp_mkdirs`. -/
theorem claim_C6_witness :
    ftp_mkdirs (errClient existsErr) 1 ("x".data) () = some ((), .error existsErr) :=
  claim_C6.2 Unit (errClient existsErr) 0 ("x".data) () () existsErr rfl (by decide)

/-- C7: `move_files` processes the batch sequentially in list order within
one session (head move first, then the tail from the resulting state, with
exception short-circuiting); for each file the destination is
`destinationDir/basename(file)`; when the `nlst` probe reports a file at the
destination, the existing destination file is deleted first and the source is
then renamed to the destination with `_fullpath`-resolved (absolute) paths;
and a probe that fails with an `ftplib.Error` is treated as "no conflict":
the move proceeds directly to the rename. -/
theorem claim_C7 :
    (∀ (σ : Type) (C : Client σ) (root f : FPath) (rest : List FPath)
        (destination : FPath) (s : σ),
        FTPStorageBackendAdapter.move_files C root (f :: rest) destination s =
          pyStep (FTPStorageBackendAdapter.move_files C root [f] destination s)
            (fun _ s1 => FTPStorageBackendAdapter.move_files C root rest destination s1))
    ∧ (∀ (merr : PyErr) (fs : FS) (root destination f : FPath),
        (findFile fs.files (segs (joinPath destination (basename f)))).isSome = true →
        FTPStorageBackendAdapter.move_files (fsClient merr) root [f] destination fs =
          fsRename merr (fullpath root f)
            (fullpath root (joinPath destination (basename f)))
            ⟨fs.dirs, removeFile fs.files (segs (joinPath destination (basename f)))⟩)
    ∧ (∀ (merr : PyErr) (fs : FS) (root destination f : FPath),
        isFtplibError merr = true →
        (findFile fs.files (segs (joinPath destination (basename f)))).isSome = false →
        dirExists fs (segs (joinPath destination (basename f))) = false →
        FTPStorageBackendAdapter.move_files (fsClient merr) root [f] destination fs =
          fsRename merr (fullpath root f)
            (fullpath root (joinPath destination (basename f))) fs) := by
  refine ⟨?_, ?_, ?_⟩
  · intro σ C root f rest destination s
    exact move_files_cons σ C root f rest destination s
  · intro merr fs root destination f hf
    have hn : (fsClient merr).nlst (joinPath destination (basename f)) fs
        = (fs, .ok [joinPath destination (basename f)]) := by
      show fsNlst merr (joinPath destination (basename f)) fs = _
      simp only [fsNlst]
      rw [if_pos hf]
    simp only [FTPStorageBackendAdapter.move_files]
    rw [hn]
    simp only [pyCatch_ok, pyStep_ok]
    rw [if_pos (List.cons_ne_nil _ _)]
    have hdel : (fsClient merr).delete (joinPath destination (basename f)) fs
        = (⟨fs.dirs, removeFile fs.files (segs (joinPath destination (basename f)))⟩,
           .ok ()) := by
      show fsDelete (joinPath destination (basename f)) fs = _
      simp only [fsDelete]
      rw [if_pos hf]
    rw [hdel]
    simp only [pyStep_ok]
    exact pyStep_unit_ok _
  · intro merr fs root destination f hferr hf0 hd0
    have hn : (fsClient merr).nlst (joinPath destination (basename f)) fs
        = (fs, .error merr) := by
      show fsNlst merr (joinPath destination (basename f)) fs = _
      simp only [fsNlst]
      rw [if_neg (by simp [hf0]), if_neg (by simp [hd0])]
    simp only [FTPStorageBackendAdapter.move_files]
    rw [hn]
    simp only [pyCatch_error]
    rw [if_pos hferr]
    simp only [pyStep_ok]
    rw [if_neg (fun h => h rfl)]
    simp only [pyStep_ok]
    exact pyStep_unit_ok _

/-- Witness for C7: a conflicting destination file gets deleted before the
rename of absolute paths. -/
theorem claim_C7_witness :
    FTPStorageBackendAdapter.move_files (fsClient notFound550) ("/r".data)
        ["a/x.txt".data] ("b".data) ⟨[], [([['b'], ['x', '.', 't', 'x', 't']], [1])]⟩
      = fsRename notFound550 (fullpath ("/r".data) ("a/x.txt".data))
          (fullpath ("/r".data) (joinPath ("b".data) (basename ("a/x.txt".data))))
          ⟨[], removeFile [([['b'], ['x', '.', 't', 'x', 't']], [1])]
              (segs (joinPath ("b".data) (basename ("a/x.txt".data))))⟩ :=
  claim_C7.2.1 notFound550 ⟨[], [([['b'], ['x', '.', 't', 'x', 't']], [1])]⟩
    ("/r".data) ("b".data) ("a/x.txt".data) (by decide)

/-- C8: a failure in the delete step of `move_files` propagates to the
caller, aborts the remaining moves of the batch, and leaves the server state
exactly as it was — in particular the source file is still at its original
location (no partial move); a failure of the single-file move (e.g. in the
rename step) likewise propagates and aborts the tail of the batch with the
state at failure time; and when the head move succeeds, the tail is processed
from the post-move state, so files already moved stay moved regardless of
later failures (no rollback). -/
theorem claim_C8 :
    (∀ (merr delErr : PyErr) (root destination f : FPath) (rest : List FPath) (fs : FS),
        (findFile fs.files (segs (joinPath destination (basename f)))).isSome = true →
        FTPStorageBackendAdapter.move_files (failDelClient (fsClient merr) delErr) root
            (f :: rest) destination fs = (fs, .error delErr))
    ∧ (∀ (σ : Type) (C : Client σ) (root destination f : FPath) (rest : List FPath)
        (s s1 : σ) (e : PyErr),
        FTPStorageBackendAdapter.move_files C root [f] destination s = (s1, .error e) →
        FTPStorageBackendAdapter.move_files C root (f :: rest) destination s
          = (s1, .error e))
    ∧ (∀ (σ : Type) (C : Client σ) (root destination f : FPath) (rest : List FPath)
        (s s1 : σ),
        FTPStorageBackendAdapter.move_files C root [f] destination s = (s1, .ok ()) →
        FTPStorageBackendAdapter.move_files C root (f :: rest) destination s
          = FTPStorageBackendAdapter.move_files C root rest destination s1) := by
  refine ⟨?_, ?_, ?_⟩
  · intro merr delErr root destination f rest fs hf
    have hn : (failDelClient (fsClient merr) delErr).nlst
        (joinPath destination (basename f)) fs
        = (fs, .ok [joinPath destination (basename f)]) := by
      show fsNlst merr (joinPath destination (basename f)) fs = _
      simp only [fsNlst]
      rw [if_pos hf]
    simp only [FTPStorageBackendAdapter.move_files]
    rw [hn]
    simp only [pyCatch_ok, pyStep_ok]
    rw [if_pos (List.cons_ne_nil _ _)]
    have hdel : (failDelClient (fsClient merr) delErr).delete
        (joinPath destination (basename f)) fs = (fs, .error delErr) := rfl
    rw [hdel]
    simp only [pyStep_error]
  · intro σ C root destination f rest s s1 e h
    rw [move_files_cons σ C root f rest destination s, h, pyStep_error]
  · intro σ C root destination f rest s s1 h
    rw [move_files_cons σ C root f rest destination s, h, pyStep_ok]

/-- Witness for C8: a failing conflict delete leaves the whole batch
unperformed with the initial state intact (source still present). -/
theorem claim_C8_witness :
    FTPStorageBackendAdapter.move_files
        (failDelClient (fsClient notFound550) (.ftplibError "450 busy")) ("/r".data)
        ["a/x.txt".data, "c.txt".data] ("b".data)
        ⟨[], [([['b'], ['x', '.', 't', 'x', 't']], [1]),
              ([['r'], ['a'], ['x', '.', 't', 'x', 't']], [2])]⟩
      = (⟨[], [([['b'], ['x', '.', 't', 'x', 't']], [1]),
               ([['r'], ['a'], ['x', '.', 't', 'x', 't']], [2])]⟩,
         .error (.ftplibError "450 busy")) :=
  claim_C8.1 notFound550 (.ftplibError "450 busy") ("/r".data) ("b".data)
    ("a/x.txt".data) ["c.txt".data]
    ⟨[], [([['b'], ['x', '.', 't', 'x', 't']], [1]),
          ([['r'], ['a'], ['x', '.', 't', 'x', 't']], [2])]⟩ (by decide)

/-- C9: `list` returns an empty sequence, not an error, when the listing
fails because the resolved path does not exist (the server raises the
`ENOENT` `IOError` the handler tests for); any listing failure that is not an
`ENOENT` `IOError` propagates to the caller unchanged. -/
theorem claim_C9 :
    (∀ (root rel : FPath) (fs : FS),
        (findFile fs.files (segs (fullpath root rel))).isSome = false →
        dirExists fs (segs (fullpath root rel)) = false →
        FTPStorageBackendAdapter.list (fsClient enoentErr) root rel fs = (fs, .ok []))
    ∧ (∀ (σ : Type) (C : Client σ) (root rel : FPath) (s s1 : σ) (e : PyErr),
        C.nlst (fullpath root rel) s = (s1, .error e) → isEnoent e = true →
        FTPStorageBackendAdapter.list C root rel s = (s1, .ok []))
    ∧ (∀ (σ : Type) (C : Client σ) (root rel : FPath) (s s1 : σ) (e : PyErr),
        C.nlst (fullpath root rel) s = (s1, .error e) → isEnoent e = false →
        FTPStorageBackendAdapter.list C root rel s = (s1, .error e)) := by
  refine ⟨?_, ?_, ?_⟩
  · intro root rel fs hf0 hd0
    have hn : (fsClient enoentErr).nlst (fullpath root rel) fs
        = (fs, .error enoentErr) := by
      show fsNlst enoentErr (fullpath root rel) fs = _
      simp only [fsNlst]
      rw [if_neg (by simp [hf0]), if_neg (by simp [hd0])]
    unfold FTPStorageBackendAdapter.list
    rw [hn]
    simp only [pyCatch_error]
    rw [if_pos (by decide)]
  · intro σ C root rel s s1 e h he
    unfold FTPStorageBackendAdapter.list
    rw [h]
    simp only [pyCatch_error]
    rw [if_pos he]
  · intro σ C root rel s s1 e h he
    unfold FTPStorageBackendAdapter.list
    rw [h]
    simp only [pyCatch_error]
    rw [if_neg (by simp [he])]

/-- Witness for C9: listing a missing directory on an empty server yields the
empty list rather than an error. -/
theorem claim_C9_witness :
    FTPStorageBackendAdapter.list (fsClient enoentErr) ("/r".data)
        ("missing/dir".data) ⟨[], []⟩ = (⟨[], []⟩, .ok []) :=
  claim_C9.1 ("/r".data) ("missing/dir".data) ⟨[], []⟩ (by decide) (by decide)

/-- C10: in `get`, only an `ftplib.Error` raised by the download is wrapped
and re-raised as `FileNotFoundError(repr(e))` with the cause attached, while
an `OSError` raised by the download propagates unchanged and unwrapped;
`add`, by contrast, wraps both the `ftplib.Error` and the `OSError` families
of the upload into `ValueError(repr(e))` with the cause attached. -/
theorem claim_C10 :
    (∀ (σ : Type) (C : Client σ) (root rel : FPath) (s s1 : σ) (e : PyErr),
        C.retrbinary ("RETR ".data ++ fullpath root rel) s = (s1, .error e) →
        isFtplibError e = true →
        FTPStorageBackendAdapter.get C root rel s
          = (s1, .error (.fileNotFoundError (pyRepr e) e)))
    ∧ (∀ (σ : Type) (C : Client σ) (root rel : FPath) (s s1 : σ) (e : PyErr),
        C.retrbinary ("RETR ".data ++ fullpath root rel) s = (s1, .error e) →
        isOSError e = true →
        FTPStorageBackendAdapter.get C root rel s = (s1, .error e))
    ∧ (∀ (σ : Type) (C : Client σ) (fuel : Nat) (root rel : FPath) (data : Bytes)
        (s s1 : σ) (e : PyErr),
        dirname (fullpath root rel) = [] →
        C.storbinary ("STOR ".data ++ fullpath root rel) data s = (s1, .error e) →
        (isFtplibError e = true ∨ isOSError e = true) →
        FTPStorageBackendAdapter.add C fuel root rel data s
          = some (s1, .error (.valueError (pyRepr e) e))) := by
  refine ⟨?_, ?_, ?_⟩
  · intro σ C root rel s s1 e h he
    unfold FTPStorageBackendAdapter.get
    rw [h]
    simp only [pyCatch_error]
    rw [if_pos he]
  · intro σ C root rel s s1 e h he
    unfold FTPStorageBackendAdapter.get
    rw [h]
    simp only [pyCatch_error]
    rw [if_neg (by simp [isOSError_not_ftplib e he])]
  · intro σ C fuel root rel data s s1 e hd hst hor
    unfold FTPStorageBackendAdapter.add
    rw [hd]
    have hstor : FTPStorageBackendAdapter.addStorStep C
        ("STOR ".data ++ fullpath root rel) data s
        = (s1, .error (.valueError (pyRepr e) e)) := by
      unfold FTPStorageBackendAdapter.addStorStep
      rw [hst]
      simp only [pyCatch_error]
      rw [if_pos hor]
    exact congrArg some hstor

/-- Witness for C10: an `ftplib` download error becomes `FileNotFoundError`,
an `OSError` download error passes through untouched, and an `OSError`
upload error is wrapped into `ValueError` by `add`. -/
theorem claim_C10_witness :
    FTPStorageBackendAdapter.get (errClient (.ftplibError "550 fail")) [] ("f".data) ()
        = ((), .error (.fileNotFoundError (pyRepr (.ftplibError "550 fail"))
            (.ftplibError "550 fail")))
    ∧ FTPStorageBackendAdapter.get (errClient (.ioError none "down")) [] ("f".data) ()
        = ((), .error (.ioError none "down"))
    ∧ FTPStorageBackendAdapter.add (errClient (.ioError none "down")) 1 [] ("f".data)
        [7] ()
        = some ((), .error (.valueError (pyRepr (.ioError none "down"))
            (.ioError none "down"))) :=
  ⟨claim_C10.1 Unit (errClient (.ftplibError "550 fail")) [] ("f".data) () () _ rfl rfl,
   claim_C10.2.1 Unit (errClient (.ioError none "down")) [] ("f".data) () () _ rfl rfl,
   claim_C10.2.2 Unit (errClient (.ioError none "down")) 1 [] ("f".data) [7] () () _
     rfl rfl (Or.inr rfl)⟩

end FtpSpec
